import Mathlib

/-!
Verification development for the BretonsACT/Bitcoin repository.

Part 1 embeds the quiz recommendation function `get_recommendation` of
`src/main.py` (a pure mapping from five categorical answers to a
recommendation triple).  Scores are natural numbers accumulated exactly as
the Python code adds them; the sequential `+=` blocks of the source are
rendered as one pair-valued contribution per question, summed componentwise.

Part 2 models the RSI alert-bot core (RSI engine, signal evaluator,
scheduler) that the specification describes; its source file is not part of
`src/`, so those definitions are modelled from the specification text and
say so in their doc comments.  Floating-point prices are modelled as exact
rationals (`ℚ`), where the arithmetic of the specification is exact and no
NaN or infinity exists.
-/

namespace Quiz

/-- Contribution of question 1 (risk tolerance) to the `(etf_score, btc_score)`
pair, from `src/main.py` lines 14-23. -/
def riskScore (risk : String) : ℕ × ℕ :=
  if risk = "Low (Protect my capital)" then (3, 0)
  else if risk = "Medium (Balanced growth and safety)" then (2, 1)
  else if risk = "High (Aggressive growth is the priority)" then (1, 2)
  else if risk = "Very High (Willing to take significant risks for maximal returns)" then (0, 3)
  else (0, 0)

/-- Contribution of question 2 (investment horizon) to `(etf_score, btc_score)`,
from `src/main.py` lines 26-32. -/
def horizonScore (horizon : ℤ) : ℕ × ℕ :=
  if horizon ≤ 3 then (0, 2)
  else if 3 < horizon ∧ horizon ≤ 10 then (1, 1)
  else (2, 0)

/-- Contribution of question 3 (primary goal) to `(etf_score, btc_score)`,
from `src/main.py` lines 35-43. -/
def goalScore (goal : String) : ℕ × ℕ :=
  if goal = "Wealth Preservation" then (3, 0)
  else if goal = "Steady, Compounded Growth" then (2, 0)
  else if goal = "Aggressive Growth" then (1, 2)
  else if goal = "High-Risk Speculation" then (0, 3)
  else (0, 0)

/-- Contribution of question 4 (management style) to `(etf_score, btc_score)`,
from `src/main.py` lines 46-49: anything other than the hands-off option adds
2 to the Bitcoin score. -/
def knowledgeScore (knowledge : String) : ℕ × ℕ :=
  if knowledge = "I want a simple, hands-off investment." then (2, 0) else (0, 2)

/-- Contribution of question 5 (view on decentralization) to
`(etf_score, btc_score)`, from `src/main.py` lines 52-58: anything other than
the two named options adds 2 to the Bitcoin score. -/
def decentralizationScore (decentralization : String) : ℕ × ℕ :=
  if decentralization = "I prefer regulated, traditional financial systems." then (2, 0)
  else if decentralization = "It\x27s interesting, but not a primary factor." then (1, 1)
  else (0, 2)

/-- The `(etf_score, btc_score)` pair accumulated by `get_recommendation`
(`src/main.py` lines 8-58): the five question contributions summed
componentwise, mirroring the sequential `+=` statements of the source. -/
def quizScores (risk : String) (horizon : ℤ)
    (goal knowledge decentralization : String) : ℕ × ℕ :=
  riskScore risk + horizonScore horizon + goalScore goal +
    knowledgeScore knowledge + decentralizationScore decentralization

/-- The ETF score of `get_recommendation`. -/
def etf_score (risk : String) (horizon : ℤ)
    (goal knowledge decentralization : String) : ℕ :=
  (quizScores risk horizon goal knowledge decentralization).1

/-- The Bitcoin score of `get_recommendation`. -/
def btc_score (risk : String) (horizon : ℤ)
    (goal knowledge decentralization : String) : ℕ :=
  (quizScores risk horizon goal knowledge decentralization).2

/-- Explanation text of the "Strongly Leans: ETF" outcome (`src/main.py`
lines 64-66). -/
def stronglyEtfText : String :=
  "Your profile indicates a strong preference for stability, long-term growth, and regulated markets. " ++
  "A diversified ETF, such as one tracking a broad market index like the S&P 500, aligns very well with your goals. " ++
  "It offers a hands-off approach to investing with lower volatility compared to single assets."

/-- Explanation text of the "Strongly Leans: Bitcoin" outcome (`src/main.py`
lines 72-74). -/
def stronglyBtcText : String :=
  "Your profile suggests a high tolerance for risk and a focus on aggressive, potentially speculative growth. " ++
  "You value direct asset control and are comfortable with the technical aspects of digital assets. " ++
  "Directly holding Bitcoin aligns with your appetite for high returns and acceptance of volatility."

/-- Explanation text of the "Leans: ETF" outcome (`src/main.py` lines 80-82). -/
def leansEtfText : String :=
  "Your profile leans towards a preference for safety and diversification. While you might be open to some risk, " ++
  "the structured and diversified nature of an ETF seems to be a better fit for your primary goals. " ++
  "You could consider a smaller allocation to higher-risk assets if you wish, but the core of your strategy points towards ETFs."

/-- Explanation text of the "Leans: Bitcoin" outcome (`src/main.py`
lines 88-90). -/
def leansBtcText : String :=
  "Your profile shows an interest in higher growth potential and you\x27re not afraid of taking on risk. " ++
  "While you appreciate some traditional aspects, your goals align more with the high-growth nature of Bitcoin. " ++
  "Ensure you fully understand the volatility and security responsibilities before investing."

/-- Explanation text of the "Balanced View: Consider Both" outcome
(`src/main.py` lines 96-98). -/
def balancedText : String :=
  "Your profile is well-balanced between seeking growth and managing risk. A hybrid approach could be suitable for you. " ++
  "This might involve a core holding in diversified ETFs for stability, complemented by a smaller, speculative position in Bitcoin " ++
  "to capture potential upside. This allows you to have a solid foundation while still participating in a high-growth asset class."

/-- `get_recommendation` from `src/main.py` lines 4-100: scores the five
answers and returns a `(recommendation, explanation, alert_type)` triple. -/
def get_recommendation (risk : String) (horizon : ℤ)
    (goal knowledge decentralization : String) : String × String × String :=
  let etf := etf_score risk horizon goal knowledge decentralization
  let btc := btc_score risk horizon goal knowledge decentralization
  if etf > btc + 3 then
    ("Strongly Leans: ETF", stronglyEtfText, "success")
  else if btc > etf + 3 then
    ("Strongly Leans: Bitcoin", stronglyBtcText, "success")
  else if etf > btc then
    ("Leans: ETF", leansEtfText, "info")
  else if btc > etf then
    ("Leans: Bitcoin", leansBtcText, "info")
  else
    ("Balanced View: Consider Both", balancedText, "warning")

/-- The four sidebar options offered for question 1 (`src/main.py`
lines 145-148). -/
def riskOptions : List String :=
  ["Low (Protect my capital)", "Medium (Balanced growth and safety)",
   "High (Aggressive growth is the priority)",
   "Very High (Willing to take significant risks for maximal returns)"]

/-- The four sidebar options offered for question 3 (`src/main.py`
lines 155-158). -/
def goalOptions : List String :=
  ["Wealth Preservation", "Steady, Compounded Growth", "Aggressive Growth",
   "High-Risk Speculation"]

/-- The hands-off option of question 4 (`src/main.py` line 162). -/
def handsOffOption : String := "I want a simple, hands-off investment."

/-- The two named options of question 5 that are tested by name in the code
(`src/main.py` lines 52-56); any other answer falls into the `else` branch. -/
def decentralizationNamedOptions : List String :=
  ["I prefer regulated, traditional financial systems.",
   "It\x27s interesting, but not a primary factor."]

/-- The five fixed result triples `get_recommendation` can return. -/
def quizTriples : List (String × String × String) :=
  [("Strongly Leans: ETF", stronglyEtfText, "success"),
   ("Strongly Leans: Bitcoin", stronglyBtcText, "success"),
   ("Leans: ETF", leansEtfText, "info"),
   ("Leans: Bitcoin", leansBtcText, "info"),
   ("Balanced View: Consider Both", balancedText, "warning")]

end Quiz

namespace Bot

/-- Modelled from the spec: the error signalled by the RSI Engine when fewer
than `period + 1` prices are supplied (§4.1); the engine source file is not
part of `src/`. -/
inductive RsiError where
  | InsufficientData
deriving DecidableEq, Repr

/-- Modelled from the spec: consecutive differences of the price series,
`delta[i] = price[i] - price[i-1]` for `i` in `1..len-1` (§4.1 step 1). -/
def deltas : List ℚ → List ℚ
  | a :: b :: rest => (b - a) :: deltas (b :: rest)
  | _ => []

/-- Modelled from the spec: the first `period` consecutive differences,
the only deltas the RSI computation uses (§4.1 step 3). -/
def windowDeltas (prices : List ℚ) (period : ℕ) : List ℚ :=
  (deltas prices).take period

/-- Modelled from the spec: sum of the gains (positive deltas, by magnitude)
among the first `period` differences (§4.1 step 2). -/
def gainsSum (prices : List ℚ) (period : ℕ) : ℚ :=
  ((windowDeltas prices period).filter (fun d => 0 < d)).sum

/-- Modelled from the spec: sum of the losses (negative deltas, by
magnitude) among the first `period` differences; zero deltas contribute to
neither sum (§4.1 step 2). -/
def lossesSum (prices : List ℚ) (period : ℕ) : ℚ :=
  (((windowDeltas prices period).filter (fun d => d < 0)).map (fun d => -d)).sum

/-- Modelled from the spec: `avgGain = sum(gains) / period`, a simple
average, not the smoothed/Wilder variant (§4.1 step 3). -/
def avgGain (prices : List ℚ) (period : ℕ) : ℚ :=
  gainsSum prices period / period

/-- Modelled from the spec: `avgLoss = sum(losses) / period` (§4.1
step 3). -/
def avgLoss (prices : List ℚ) (period : ℕ) : ℚ :=
  lossesSum prices period / period

/-- Modelled from the spec: the RSI Engine (§4.1).  Prices are exact
rationals, so the arithmetic has no NaN and no infinity; the function is
total, returning `InsufficientData` exactly on short inputs, `100` when
`avgLoss = 0`, and `100 - (100 / (1 + avgGain / avgLoss))` otherwise. -/
def computeRsi (prices : List ℚ) (period : ℕ) : Except RsiError ℚ :=
  if prices.length < period + 1 then .error .InsufficientData
  else if avgLoss prices period = 0 then .ok 100
  else .ok (100 - 100 / (1 + avgGain prices period / avgLoss prices period))

/-- The synthetic 15-point series named by the specification (§8), used as a
concrete evaluation point. -/
def series14 : List ℚ :=
  [100, 102, 101, 105, 103, 107, 108, 106, 110, 112, 111, 115, 116, 114, 118]

/-- A strictly declining 15-point series (each delta is `-1`), used as a
concrete evaluation point for the alert path. -/
def declining15 : List ℚ :=
  [115, 114, 113, 112, 111, 110, 109, 108, 107, 106, 105, 104, 103, 102, 101]

/-- Modelled from the spec: the three provider failure modes a cycle can
observe (§4.2 step 2): network error, non-success status, malformed
payload. -/
inductive ProviderFailure where
  | networkError
  | nonSuccessStatus
  | malformedPayload
deriving DecidableEq, Repr

/-- Modelled from the spec: the price-history provider response consumed by
one cycle — an ordered sequence of prices, or a failure. -/
inductive ProviderResult where
  | ok (prices : List ℚ)
  | failure (reason : ProviderFailure)
deriving DecidableEq, Repr

/-- Modelled from the spec: the error taxonomy of §7. -/
inductive CycleError where
  | MisconfiguredCredentials
  | DataUnavailable
  | InsufficientData
  | NotificationFailure
deriving DecidableEq, Repr

/-- Modelled from the spec: the in-memory configuration resolved before the
core runs — two optional secrets and the numeric constants (§6). -/
structure BotConfig where
  botToken : Option String
  chatId : Option String
  period : ℕ
  threshold : ℚ
deriving DecidableEq, Repr

/-- Modelled from the spec: an AlertMessage carries the numeric RSI
formatted to two-decimal precision and the threshold (§3, §4.2 step 4). -/
structure AlertMessage where
  rsiText : String
  threshold : ℚ
deriving DecidableEq, Repr

/-- Modelled from the spec: round to the nearest hundredth and print with
exactly two digits after the decimal point (RSI values lie in `[0, 100]`,
so the nonnegative case suffices). -/
def formatTwoDecimals (q : ℚ) : String :=
  let n : ℤ := ⌊q * 100 + 1 / 2⌋
  let whole : ℤ := n / 100
  let frac : ℕ := (n % 100).toNat
  toString whole ++ "." ++ (if frac < 10 then "0" ++ toString frac else toString frac)

/-- Modelled from the spec: the alert message composed when the RSI is below
the threshold (§4.2 step 4). -/
def composeAlert (rsi : ℚ) (threshold : ℚ) : AlertMessage :=
  { rsiText := formatTwoDecimals rsi, threshold := threshold }

/-- Modelled from the spec: the outcome of one Signal Evaluator cycle.  The
evaluator is a total function into this type, so every cycle terminates
normally and no exception escapes. -/
inductive CycleOutcome where
  | failed (e : CycleError)
  | noSignal (rsi : ℚ)
  | alerted (rsi : ℚ)
deriving DecidableEq, Repr

/-- Modelled from the spec: one fetch→compute→decide→notify cycle (§4.2):
missing credentials fail the cycle with `MisconfiguredCredentials`; any
provider failure fails it with `DataUnavailable` and the cycle is abandoned
(the provider is consulted exactly once — no retry within the cycle); an
RSI `InsufficientData` abandons the cycle likewise; otherwise the cycle
alerts exactly when the RSI is strictly below the threshold and ends with
no action otherwise. -/
def runCycle (cfg : BotConfig) (provider : ProviderResult) : CycleOutcome :=
  if cfg.botToken = none ∨ cfg.chatId = none then .failed .MisconfiguredCredentials
  else
    match provider with
    | .failure _ => .failed .DataUnavailable
    | .ok prices =>
      match computeRsi prices cfg.period with
      | .error _ => .failed .InsufficientData
      | .ok rsi =>
        if rsi < cfg.threshold then .alerted rsi
        else .noSignal rsi

/-- Modelled from the spec: the sequence of calls one cycle makes to the
notification sink — one composed AlertMessage when the cycle alerts, none
otherwise. -/
def sinkCalls (cfg : BotConfig) (provider : ProviderResult) : List AlertMessage :=
  match runCycle cfg provider with
  | .alerted rsi => [composeAlert rsi cfg.threshold]
  | _ => []

/-- A concrete configuration with both secrets present, `period = 14` and
`threshold = 30` (the defaults of §6), used as an evaluation point. -/
def cfg0 : BotConfig :=
  { botToken := some "token", chatId := some "chat", period := 14, threshold := 30 }

/-- Modelled from the spec: the Scheduler states (§4.3).  The state space
has no exit state: the process polls forever until terminated
externally. -/
inductive SchedState where
  | Init
  | Armed
  | Disabled
deriving DecidableEq, Repr

/-- Modelled from the spec: one polling tick — whether the daily trigger is
due, and the outcome the Signal Evaluator reports if it runs on this
tick. -/
structure Tick where
  due : Bool
  report : CycleOutcome
deriving DecidableEq, Repr

/-- Modelled from the spec: one step of the Scheduler state machine (§4.3).
`Init` runs one evaluation immediately and arms the daily trigger; `Armed`
runs the evaluator when the trigger is due and re-arms; a report of
`MisconfiguredCredentials` clears the schedule (`Disabled`); `Disabled`
never runs the evaluator again but keeps polling.  The Bool records whether
a trigger fired (an evaluation ran) on this step. -/
def schedStep : SchedState → Tick → SchedState × Bool
  | .Init, t =>
    if t.report = .failed .MisconfiguredCredentials then (.Disabled, true)
    else (.Armed, true)
  | .Armed, t =>
    if t.due then
      if t.report = .failed .MisconfiguredCredentials then (.Disabled, true)
      else (.Armed, true)
    else (.Armed, false)
  | .Disabled, _ => (.Disabled, false)

/-- Modelled from the spec: run the Scheduler over a sequence of polling
ticks, returning the final state and the per-tick record of whether a
trigger fired.  Defined for every tick sequence: the process never
exits. -/
def schedRun (s : SchedState) : List Tick → SchedState × List Bool
  | [] => (s, [])
  | t :: ts =>
    let stepped := schedStep s t
    let rest := schedRun stepped.1 ts
    (rest.1, stepped.2 :: rest.2)

/-- The tick on which a due trigger reports missing credentials, used as a
concrete evaluation point. -/
def misconfiguredTick : Tick :=
  { due := true, report := .failed .MisconfiguredCredentials }

end Bot

namespace Quiz

/-- C1: `get_recommendation` is a static mapping: any two runs on the same
five arguments return the identical `(recommendation, explanation,
alert_type)` triple.  In this shallow embedding the function is a plain
mathematical function of its five arguments, so it reads and writes no state
outside its arguments and locals by construction. -/
theorem get_recommendation_static
    (r1 r2 : String) (h1 h2 : ℤ) (g1 g2 k1 k2 d1 d2 : String)
    (hr : r1 = r2) (hh : h1 = h2) (hg : g1 = g2) (hk : k1 = k2) (hd : d1 = d2) :
    get_recommendation r1 h1 g1 k1 d1 = get_recommendation r2 h2 g2 k2 d2 := by
  subst hr hh hg hk hd
  rfl

/-- Witness for C1 at a concrete input. -/
theorem get_recommendation_static_witness :
    get_recommendation "Low (Protect my capital)" 10 "Wealth Preservation"
        "I want a simple, hands-off investment."
        "I prefer regulated, traditional financial systems." =
      get_recommendation "Low (Protect my capital)" 10 "Wealth Preservation"
        "I want a simple, hands-off investment."
        "I prefer regulated, traditional financial systems." :=
  get_recommendation_static _ _ _ _ _ _ _ _ _ _ rfl rfl rfl rfl rfl

end Quiz

namespace Quiz

/-- C2: `get_recommendation` is total on its public interface: for every
string-valued answers and every integer horizon it returns one of the five
fixed triples, with `alert_type` always `"success"`, `"info"` or
`"warning"`; strings outside the sidebar options contribute nothing for risk
and goal but add 2 to the Bitcoin score for knowledge and decentralization. -/
theorem get_recommendation_total (risk : String) (horizon : ℤ)
    (goal knowledge decentralization : String) :
    get_recommendation risk horizon goal knowledge decentralization ∈ quizTriples ∧
    (get_recommendation risk horizon goal knowledge decentralization).2.2 ∈
      (["success", "info", "warning"] : List String) ∧
    (risk ∉ riskOptions → riskScore risk = (0, 0)) ∧
    (goal ∉ goalOptions → goalScore goal = (0, 0)) ∧
    (knowledge ≠ handsOffOption → knowledgeScore knowledge = (0, 2)) ∧
    (decentralization ∉ decentralizationNamedOptions →
      decentralizationScore decentralization = (0, 2)) := by
  refine ⟨?_, ?_, ?_, ?_, ?_, ?_⟩
  · simp only [get_recommendation, quizTriples]
    split_ifs <;> simp
  · simp only [get_recommendation]
    split_ifs <;> simp
  · intro h
    unfold riskOptions at h
    simp only [List.mem_cons, List.not_mem_nil, or_false, not_or] at h
    unfold riskScore
    simp [h.1, h.2.1, h.2.2.1, h.2.2.2]
  · intro h
    unfold goalOptions at h
    simp only [List.mem_cons, List.not_mem_nil, or_false, not_or] at h
    unfold goalScore
    simp [h.1, h.2.1, h.2.2.1, h.2.2.2]
  · intro h
    unfold handsOffOption at h
    simp [knowledgeScore, h]
  · intro h
    unfold decentralizationNamedOptions at h
    simp only [List.mem_cons, List.not_mem_nil, or_false, not_or] at h
    unfold decentralizationScore
    simp [h.1, h.2]

/-- Witness for C2 at concrete inputs, exercising the unknown-string
branches. -/
theorem get_recommendation_total_witness :
    get_recommendation "x" 5 "y" "z" "w" ∈ quizTriples ∧
    riskScore "x" = (0, 0) ∧ knowledgeScore "z" = (0, 2) := by
  refine ⟨(get_recommendation_total "x" 5 "y" "z" "w").1,
    (get_recommendation_total "x" 5 "y" "z" "w").2.2.1 (by decide),
    (get_recommendation_total "x" 5 "y" "z" "w").2.2.2.2.1 (by decide)⟩

/-- C3: the alert type of `get_recommendation` is `"warning"` exactly when
the two scores are equal, `"success"` exactly when one score exceeds the
other by at least 4, and `"info"` exactly when the scores differ by 1, 2
or 3. -/
theorem alert_type_characterization (risk : String) (horizon : ℤ)
    (goal knowledge decentralization : String) :
    ((get_recommendation risk horizon goal knowledge decentralization).2.2 = "warning" ↔
      etf_score risk horizon goal knowledge decentralization =
        btc_score risk horizon goal knowledge decentralization) ∧
    ((get_recommendation risk horizon goal knowledge decentralization).2.2 = "success" ↔
      (btc_score risk horizon goal knowledge decentralization + 4 ≤
          etf_score risk horizon goal knowledge decentralization ∨
        etf_score risk horizon goal knowledge decentralization + 4 ≤
          btc_score risk horizon goal knowledge decentralization)) ∧
    ((get_recommendation risk horizon goal knowledge decentralization).2.2 = "info" ↔
      (1 ≤ ((etf_score risk horizon goal knowledge decentralization : ℤ) -
          btc_score risk horizon goal knowledge decentralization).natAbs ∧
        ((etf_score risk horizon goal knowledge decentralization : ℤ) -
          btc_score risk horizon goal knowledge decentralization).natAbs ≤ 3)) := by
  simp only [get_recommendation]
  split_ifs with h1 h2 h3 h4 <;> refine ⟨?_, ?_, ?_⟩ <;> simp <;> omega

end Quiz

namespace Bot

/-- Taking `period + 1` prices first and then forming differences is the
same as forming differences first and keeping the first `period`. -/
theorem deltas_take (l : List ℚ) (n : ℕ) :
    deltas (l.take (n + 1)) = (deltas l).take n := by
  induction l generalizing n with
  | nil => simp [deltas]
  | cons a t ih =>
    cases t with
    | nil => cases n <;> simp [deltas]
    | cons b rest =>
      cases n with
      | zero => simp [deltas]
      | succ m =>
        simp only [List.take_succ_cons, deltas]
        exact congrArg _ (ih m)

/-- The window of the first `period` deltas is unchanged by discarding the
prices beyond the first `period + 1`. -/
theorem windowDeltas_take (prices : List ℚ) (period : ℕ) :
    windowDeltas (prices.take (period + 1)) period = windowDeltas prices period := by
  simp [windowDeltas, deltas_take, List.take_take]

/-- `computeRsi` depends only on the first `period + 1` prices. -/
theorem computeRsi_take (prices : List ℚ) (period : ℕ)
    (hlen : period + 1 ≤ prices.length) :
    computeRsi (prices.take (period + 1)) period = computeRsi prices period := by
  have h1 : ¬ (prices.length < period + 1) := by omega
  have h2 : ¬ ((prices.take (period + 1)).length < period + 1) := by
    simp only [List.length_take]
    omega
  have hg : avgGain (prices.take (period + 1)) period = avgGain prices period := by
    simp [avgGain, gainsSum, windowDeltas_take]
  have hl : avgLoss (prices.take (period + 1)) period = avgLoss prices period := by
    simp [avgLoss, lossesSum, windowDeltas_take]
  simp [computeRsi, h1, h2, hg, hl]

/-- C4: the RSI Engine computes consecutive differences
`delta[i] = price[i] - price[i-1]`, averages the gains and losses among the
first `period` deltas only — so the result is unchanged by truncating the
input to `period + 1` prices — and, when `avgLoss` is nonzero, returns
`100 - (100 / (1 + avgGain / avgLoss))` with
`avgGain = sum(gains) / period` and `avgLoss = sum(losses) / period` as
simple averages. -/
theorem computeRsi_spec (prices : List ℚ) (period : ℕ)
    (hlen : period + 1 ≤ prices.length) (_hp : 0 < period)
    (hloss : avgLoss prices period ≠ 0) :
    (∀ i, i + 1 < prices.length →
      (deltas prices).getD i 0 = prices.getD (i + 1) 0 - prices.getD i 0) ∧
    avgGain prices period = gainsSum prices period / period ∧
    avgLoss prices period = lossesSum prices period / period ∧
    computeRsi prices period = computeRsi (prices.take (period + 1)) period ∧
    computeRsi prices period =
      .ok (100 - 100 / (1 + avgGain prices period / avgLoss prices period)) := by
  have h1 : ¬ (prices.length < period + 1) := by omega
  refine ⟨?_, rfl, rfl, (computeRsi_take prices period hlen).symm, ?_⟩
  · intro i hi
    clear hlen h1 hloss
    induction prices generalizing i with
    | nil => simp at hi
    | cons a t ih =>
      cases t with
      | nil => simp at hi
      | cons b rest =>
        cases i with
        | zero => simp [deltas]
        | succ j =>
          have hj : j + 1 < (b :: rest).length := by
            simpa using Nat.lt_of_succ_lt_succ hi
          simpa [deltas] using ih j hj
  · simp [computeRsi, h1, hloss]

/-- Witness for C4 on the synthetic 15-point series of the specification
with `period = 14`. -/
theorem computeRsi_spec_witness :
    computeRsi series14 14 =
      .ok (100 - 100 / (1 + avgGain series14 14 / avgLoss series14 14)) :=
  (computeRsi_spec series14 14 (by decide) (by decide)
    (by norm_num [avgLoss, lossesSum, windowDeltas, deltas, series14])).2.2.2.2

end Bot

namespace Bot

/-- C5: on every sufficiently long price series whose first `period` deltas
contain no losses (`avgLoss = 0`), the RSI Engine returns exactly `100`,
with no division by zero and no exception: the result is a plain `.ok`
value of the total function `computeRsi` over exact rationals (which have
no NaN). -/
theorem computeRsi_no_losses (prices : List ℚ) (period : ℕ)
    (hlen : period + 1 ≤ prices.length) (hloss : avgLoss prices period = 0) :
    computeRsi prices period = .ok 100 := by
  have h1 : ¬ (prices.length < period + 1) := by omega
  simp [computeRsi, h1, hloss]

/-- Witness for C5 on a strictly ascending three-point series with
`period = 2`. -/
theorem computeRsi_no_losses_witness :
    computeRsi [1, 2, 3] 2 = .ok 100 :=
  computeRsi_no_losses [1, 2, 3] 2 (by decide)
    (by norm_num [avgLoss, lossesSum, windowDeltas, deltas])

/-- C6: the RSI Engine fails with `InsufficientData` exactly when the price
series is shorter than `period + 1`; in particular the empty series always
fails, and a single-element series fails for every positive period.  For
such inputs no RSI value is produced (the result is the error, not an
`.ok`). -/
theorem computeRsi_insufficient (prices : List ℚ) (period : ℕ) :
    (computeRsi prices period = .error .InsufficientData ↔
      prices.length < period + 1) ∧
    computeRsi [] period = .error .InsufficientData ∧
    (0 < period → ∀ p : ℚ, computeRsi [p] period = .error .InsufficientData) := by
  refine ⟨?_, ?_, ?_⟩
  · by_cases hlen : prices.length < period + 1
    · simp [computeRsi, hlen]
    · simp only [computeRsi, if_neg hlen]
      constructor
      · intro h
        split_ifs at h
      · intro h
        exact absurd h hlen
  · simp [computeRsi]
  · intro hp p
    have h : ([p] : List ℚ).length < period + 1 := by simpa using hp
    unfold computeRsi
    rw [if_pos h]

/-- Witness for C6 on a single-element series with the default period 14. -/
theorem computeRsi_insufficient_witness :
    computeRsi [(5 : ℚ)] 14 = .error .InsufficientData :=
  (computeRsi_insufficient [(5 : ℚ)] 14).2.2 (by decide) 5

/-- C7: the RSI Engine is a pure function of the price series and period: in
this shallow embedding it is a plain mathematical function with no I/O and
no side effects, so any two invocations on the same inputs return the same
value. -/
theorem computeRsi_deterministic (p1 p2 : List ℚ) (n1 n2 : ℕ)
    (hp : p1 = p2) (hn : n1 = n2) :
    computeRsi p1 n1 = computeRsi p2 n2 := by
  subst hp hn
  rfl

/-- Witness for C7 at a concrete input. -/
theorem computeRsi_deterministic_witness :
    computeRsi series14 14 = computeRsi series14 14 :=
  computeRsi_deterministic series14 series14 14 14 rfl rfl

end Bot

namespace Bot

/-- C8: in a Signal Evaluator cycle with credentials present and a computed
RSI value, a notification is sent if and only if the RSI is strictly below
the threshold; in that case the single sink call carries the AlertMessage
holding the RSI formatted to two-decimal precision and the threshold, and
otherwise the cycle ends with no action as a normal `noSignal`
termination. -/
theorem cycle_notify_iff (cfg : BotConfig) (prices : List ℚ) (rsi : ℚ)
    (htok : cfg.botToken ≠ none) (hchat : cfg.chatId ≠ none)
    (hr : computeRsi prices cfg.period = .ok rsi) :
    (sinkCalls cfg (.ok prices) ≠ [] ↔ rsi < cfg.threshold) ∧
    (rsi < cfg.threshold →
      sinkCalls cfg (.ok prices) =
        [{ rsiText := formatTwoDecimals rsi, threshold := cfg.threshold }]) ∧
    (¬ rsi < cfg.threshold →
      runCycle cfg (.ok prices) = .noSignal rsi ∧
      sinkCalls cfg (.ok prices) = []) := by
  have hc : ¬ (cfg.botToken = none ∨ cfg.chatId = none) := not_or.mpr ⟨htok, hchat⟩
  by_cases h : rsi < cfg.threshold <;>
    simp [sinkCalls, runCycle, hc, hr, composeAlert, h]

/-- Witness for C8: with both secrets present, `period = 14` and
`threshold = 30`, the sharply declining 15-point series computes RSI `0`
and triggers exactly one sink call carrying `0` formatted to two
decimals. -/
theorem cycle_notify_iff_witness :
    sinkCalls cfg0 (.ok declining15) ≠ [] ∧
    sinkCalls cfg0 (.ok declining15) =
      [{ rsiText := formatTwoDecimals 0, threshold := 30 }] := by
  have hr : computeRsi declining15 cfg0.period = .ok 0 := by
    norm_num [computeRsi, declining15, cfg0, avgGain, avgLoss, gainsSum,
      lossesSum, windowDeltas, deltas]
  have h := cycle_notify_iff cfg0 declining15 0 (by simp [cfg0]) (by simp [cfg0]) hr
  exact ⟨h.1.mpr (by norm_num [cfg0]), h.2.1 (by norm_num [cfg0])⟩

/-- C9: every provider failure — network error, non-success status or
malformed payload — fails the cycle with `DataUnavailable` and abandons it:
the notification sink is called zero times, the provider is consulted only
once (no retry exists in `runCycle`), and the cycle terminates normally
with a `failed` outcome of the total function rather than an escaping
exception. -/
theorem cycle_provider_failure (cfg : BotConfig) (reason : ProviderFailure)
    (htok : cfg.botToken ≠ none) (hchat : cfg.chatId ≠ none) :
    runCycle cfg (.failure reason) = .failed .DataUnavailable ∧
    sinkCalls cfg (.failure reason) = [] := by
  have hc : ¬ (cfg.botToken = none ∨ cfg.chatId = none) := not_or.mpr ⟨htok, hchat⟩
  simp [runCycle, sinkCalls, hc]

/-- Witness for C9 on a simulated network error. -/
theorem cycle_provider_failure_witness :
    runCycle cfg0 (.failure .networkError) = .failed .DataUnavailable ∧
    sinkCalls cfg0 (.failure .networkError) = [] :=
  cycle_provider_failure cfg0 .networkError (by simp [cfg0]) (by simp [cfg0])

/-- C10: when the Signal Evaluator reports `MisconfiguredCredentials` on a
due trigger, the Scheduler steps from `Armed` to `Disabled`; every run from
`Disabled` stays in `Disabled` (so every state reachable after the
transition is `Disabled`), fires no trigger, and still processes every
subsequent polling tick — the process does not exit. -/
theorem scheduler_disables (t : Tick) (hdue : t.due = true)
    (hrep : t.report = .failed .MisconfiguredCredentials) :
    (schedStep .Armed t).1 = .Disabled ∧
    (∀ ticks : List Tick, (schedRun .Disabled ticks).1 = .Disabled) ∧
    (∀ ticks : List Tick, ∀ b ∈ (schedRun .Disabled ticks).2, b = false) ∧
    (∀ ticks : List Tick, (schedRun .Disabled ticks).2.length = ticks.length) := by
  refine ⟨by simp [schedStep, hdue, hrep], ?_, ?_, ?_⟩
  · intro ticks
    induction ticks with
    | nil => rfl
    | cons u us ih => simpa [schedRun, schedStep] using ih
  · intro ticks
    induction ticks with
    | nil => simp [schedRun]
    | cons u us ih => simpa [schedRun, schedStep] using ih
  · intro ticks
    induction ticks with
    | nil => rfl
    | cons u us ih => simpa [schedRun, schedStep] using ih

/-- Witness for C10 on the concrete misconfigured tick and a two-tick
run. -/
theorem scheduler_disables_witness :
    (schedStep .Armed misconfiguredTick).1 = .Disabled ∧
    (schedRun .Disabled [misconfiguredTick, misconfiguredTick]).1 = .Disabled ∧
    (schedRun .Disabled [misconfiguredTick, misconfiguredTick]).2.length = 2 := by
  have h := scheduler_disables misconfiguredTick rfl rfl
  exact ⟨h.1, h.2.1 _, h.2.2.2 _⟩

end Bot
